import Mathlib

/-!
Verification of the coinbase-trade-executor order pipeline.

Shallow embedding of `src/config.py` and `src/trading_bot.py`.  Python floats
are modelled as rationals (ℚ); every dollar amount in the claims is exactly
representable.  The exchange gateway (the Coinbase REST client) is modelled as
a record of the responses it would give, and every bot operation returns,
alongside its result, the list of REST endpoints it invoked, so that claims of
the form "the submission endpoint is never called" are statements about that
trace.  A Python method that returns `None` on failure is modelled with
`Option`, and the distinct `return None` sites of `place_market_buy` /
`_execute_market_buy` are told apart by the constructors of `BuyResult`
(the spec's outcome taxonomy).
-/

namespace CoinbaseBot

/-- Python `str.lower()` restricted to the character-wise case mapping
(`config.py` applies it to the `trading_mode` string). -/
def pyLower (s : String) : String :=
  String.mk (s.data.map Char.toLower)

/-- Python `str.upper()` restricted to the character-wise case mapping
(used on the uuid hex token and on `trading_mode` in the summary). -/
def pyUpper (s : String) : String :=
  String.mk (s.data.map Char.toUpper)

/-- Python `s[-n:]` for a string at least `n` long (used for `api_key[-4:]`). -/
def strTakeRight (s : String) (n : ℕ) : String :=
  String.mk (s.data.drop (s.data.length - n))

/-- Round a rational to the nearest integer, ties to even: the rounding Python
uses when formatting a value exactly representable at the target precision. -/
def roundHalfEven (q : ℚ) : ℤ :=
  let f : ℤ := ⌊q⌋
  let r : ℚ := q - (f : ℚ)
  if r < 1/2 then f
  else if 1/2 < r then f + 1
  else if f % 2 = 0 then f else f + 1

/-- Decimal digits of `n`, left-padded with zeros to `width` characters. -/
def natToPadded (n width : ℕ) : String :=
  let s := toString n
  String.mk (List.replicate (width - s.data.length) '0') ++ s

/-- Decimal rendering of an already-scaled integer at `prec` decimal places. -/
def fmtScaled (scaled : ℤ) (prec : ℕ) : String :=
  let sign : String := if scaled < 0 then "-" else ""
  let a : ℕ := scaled.natAbs
  if prec = 0 then sign ++ toString a
  else sign ++ toString (a / 10 ^ prec) ++ "." ++ natToPadded (a % 10 ^ prec) prec

/-- Python `f"{x:.prec f}"` on a value exactly representable at that
precision (all amounts appearing in the claims are). -/
def fmtFixed (q : ℚ) (prec : ℕ) : String :=
  fmtScaled (roundHalfEven (q * ((10 : ℚ) ^ prec))) prec

/-- `config.py` lines 16-37: the `TradingConfig` dataclass. -/
structure TradingConfig where
  api_key : String
  api_secret : String
  trading_mode : String
  max_order_usd : ℚ
  trading_pair : String
deriving DecidableEq

/-- `config.py` lines 34-37: `return self.trading_mode.lower() != 'live'`. -/
def TradingConfig.is_dry_run (c : TradingConfig) : Bool :=
  pyLower c.trading_mode != "live"

/-- The spec's own wording of the derived property, for comparison with the
source definition: `is_dry_run = trading_mode != "live"` (exact string). -/
def spec_is_dry_run (c : TradingConfig) : Bool :=
  c.trading_mode != "live"

/-- `config.py` line 101: the masked rendering of the API key. -/
def masked_key (c : TradingConfig) : String :=
  if 8 < c.api_key.data.length then
    String.mk (c.api_key.data.take 4) ++ "..." ++ strTakeRight c.api_key 4
  else "****"

/-- `config.py` lines 93-115: everything `print_config_summary` writes to
stdout, as one string (each `print` contributes its text plus a newline). -/
def print_config_summary (c : TradingConfig) : String :=
  let eqline := String.mk (List.replicate 50 '=')
  "\n" ++ eqline ++ "\n" ++
  "CONFIGURATION SUMMARY" ++ "\n" ++
  eqline ++ "\n" ++
  "API Key:        " ++ masked_key c ++ "\n" ++
  "Trading Mode:   " ++ pyUpper c.trading_mode ++ "\n" ++
  "Trading Pair:   " ++ c.trading_pair ++ "\n" ++
  "Max Order:      $" ++ fmtFixed c.max_order_usd 2 ++ "\n" ++
  (if c.is_dry_run then "\n[DRY RUN MODE] No real trades will be executed\n"
   else "\n[LIVE MODE] Real trades WILL be executed!\n") ++
  eqline ++ "\n" ++ "\n"

/-- One account of the `get_accounts` response. -/
structure Account where
  currency : String
  available_balance : ℚ
deriving DecidableEq

/-- One price level of the order book. -/
structure BookLevel where
  price : ℚ
  size : ℚ
deriving DecidableEq

/-- The REST endpoints of the Coinbase client the bot can hit.  Each bot
method records which of these it invoked. -/
inductive ApiCall
  | getAccounts
  | getProduct
  | getProductBook
  | marketOrderBuy
deriving DecidableEq

/-- The exchange gateway as the bot observes it: the parsed responses of the
four endpoints.  `none` models the cases the source collapses into the same
branch: a raised transport error, or a falsy / shape-invalid response. -/
structure Gateway where
  accounts : Option (List Account)
  price : Option ℚ
  book : Option (List BookLevel × List BookLevel)
  submitAck : Option String
deriving DecidableEq

/-- `trading_bot.py` lines 125-163: `validate_credentials`; true exactly when
`get_accounts` yields a response with an `accounts` attribute. -/
def validate_credentials (gw : Gateway) : Bool × List ApiCall :=
  (gw.accounts.isSome, [ApiCall.getAccounts])

/-- `trading_bot.py` lines 165-190: `get_current_price`; `none` on request
failure or missing product. -/
def get_current_price (gw : Gateway) : Option ℚ × List ApiCall :=
  (gw.price, [ApiCall.getProduct])

/-- `trading_bot.py` lines 192-253: `get_order_book`; bids and asks truncated
to `limit` levels, `none` on failure. -/
def get_order_book (gw : Gateway) (limit : ℕ) :
    Option (List BookLevel × List BookLevel) × List ApiCall :=
  (gw.book.map (fun pb => (pb.1.take limit, pb.2.take limit)), [ApiCall.getProductBook])

/-- `trading_bot.py` lines 255-282: `get_account_balance`; the first account
with the requested currency, `none` when absent or when `get_accounts`
fails. -/
def get_account_balance (gw : Gateway) (currency : String) : Option ℚ × List ApiCall :=
  (match gw.accounts with
   | none => none
   | some accts => (accts.find? (fun a => a.currency == currency)).map Account.available_balance,
   [ApiCall.getAccounts])

/-- The dict built at `trading_bot.py` lines 353-363 (simulated order).  The
uuid token and the timestamp are inputs of the model: `uuid.uuid4().hex[:8]`
and `datetime.now().isoformat()` are draws from the environment. -/
structure SimulatedOrder where
  order_id : String
  product_id : String
  side : String
  order_type : String
  status : String
  quote_size : String
  estimated_fill_price : String
  estimated_quantity : String
  timestamp : String
deriving DecidableEq

/-- The dict built at `trading_bot.py` lines 422-431 (live order).
`quote_size` is kept as the numeric value the source renders with `str`. -/
structure PlacedOrder where
  order_id : String
  client_order_id : String
  product_id : String
  side : String
  order_type : String
  quote_size : ℚ
  status : String
  timestamp : String
deriving DecidableEq

/-- Outcome of `place_market_buy`.  The source returns a dict on success and
`None` on failure; the rejection constructors name the distinct `return None`
sites (lines 303-305, 308-314, 318-320, 397-401, 440-447), in the spec's
vocabulary.  `dataUnavailable` is the outcome the spec's taxonomy assigns to a
failed gateway read; no return site of the source produces it. -/
inductive BuyResult
  | invalidAmount
  | exceedsConfiguredLimit
  | belowExchangeMinimum
  | insufficientBalance
  | dataUnavailable
  | simulated (order : SimulatedOrder)
  | placed (order : PlacedOrder)
  | submissionFailed
deriving DecidableEq

/-- `trading_bot.py` lines 344-347: the price used by the simulation; a
failed fetch (and a falsy `0.0`) become `0`. -/
def fetchedPriceOr0 (gw : Gateway) : ℚ :=
  match (get_current_price gw).1 with
  | none => 0
  | some p => p

/-- `trading_bot.py` lines 329-377: `_simulate_market_buy`. -/
def simulate_market_buy (cfg : TradingConfig) (gw : Gateway)
    (uuidHex8 now : String) (usd_amount : ℚ) : SimulatedOrder × List ApiCall :=
  let current_price := fetchedPriceOr0 gw
  let estimated_quantity : ℚ := if 0 < current_price then usd_amount / current_price else 0
  ({ order_id := "DRY-RUN-" ++ pyUpper uuidHex8
     product_id := cfg.trading_pair
     side := "BUY"
     order_type := "MARKET"
     status := "SIMULATED"
     quote_size := fmtFixed usd_amount 2
     estimated_fill_price := fmtFixed current_price 2
     estimated_quantity := fmtFixed estimated_quantity 8
     timestamp := now },
   (get_current_price gw).2)

/-- `trading_bot.py` line 397: `usd_balance is not None and usd_balance <
usd_amount` — the only condition under which the live path rejects before
submitting. -/
def balanceBlocks : Option ℚ → ℚ → Bool
  | some b, amt => decide (b < amt)
  | none, _ => false

/-- `trading_bot.py` lines 379-447: `_execute_market_buy`.  `clientOrderId`
models the fresh `str(uuid.uuid4())` draw, `now` the timestamp. -/
def execute_market_buy (cfg : TradingConfig) (gw : Gateway)
    (clientOrderId now : String) (usd_amount : ℚ) : BuyResult × List ApiCall :=
  let bal := get_account_balance gw "USD"
  if balanceBlocks bal.1 usd_amount then
    (BuyResult.insufficientBalance, bal.2)
  else
    (match gw.submitAck with
     | some exchange_order_id =>
         BuyResult.placed
           { order_id := exchange_order_id
             client_order_id := clientOrderId
             product_id := cfg.trading_pair
             side := "BUY"
             order_type := "MARKET"
             quote_size := usd_amount
             status := "PLACED"
             timestamp := now }
     | none => BuyResult.submissionFailed,
     bal.2 ++ [ApiCall.marketOrderBuy])

/-- `trading_bot.py` lines 284-327: `place_market_buy` — the three amount
guards in source order, then the mode branch. -/
def place_market_buy (cfg : TradingConfig) (gw : Gateway)
    (uuidHex8 clientOrderId now : String) (usd_amount : ℚ) : BuyResult × List ApiCall :=
  if usd_amount ≤ 0 then (BuyResult.invalidAmount, [])
  else if cfg.max_order_usd < usd_amount then (BuyResult.exceedsConfiguredLimit, [])
  else if usd_amount < 1 then (BuyResult.belowExchangeMinimum, [])
  else if cfg.is_dry_run then
    let sim := simulate_market_buy cfg gw uuidHex8 now usd_amount
    (BuyResult.simulated sim.1, sim.2)
  else execute_market_buy cfg gw clientOrderId now usd_amount

/-- `trading_bot.py` lines 449-512: `run_diagnostics`.  `all_passed` is
threaded exactly as in the source: tests 1-3 can clear it, test 4 only
warns. -/
def run_diagnostics (gw : Gateway) : Bool × List ApiCall :=
  let all_passed := true
  let t1 := validate_credentials gw
  let all_passed := if t1.1 then all_passed else false
  let t2 := get_current_price gw
  let all_passed := if t2.1 = none then false else all_passed
  let t3 := get_order_book gw 5
  let all_passed := if t3.1 = none then false else all_passed
  let t4 := get_account_balance gw "USD"
  (all_passed, t1.2 ++ t2.2 ++ t3.2 ++ t4.2)

/-- Substring test on the character lists of strings (Python `in`). -/
def containsSub (pat : List Char) : List Char → Bool
  | [] => pat.isEmpty
  | c :: t => pat.isPrefixOf (c :: t) || containsSub pat t

/-- Python `pat in s`. -/
def strContains (s pat : String) : Bool :=
  containsSub pat.data s.data

/-- The alphabet of `uuid.uuid4().hex`: the ten decimal digits followed by
the six lowercase letters `a`-`f`. -/
def lowerHexChars : List Char :=
  (List.range 10).map (fun n => Char.ofNat (48 + n)) ++
    (List.range 6).map (fun n => Char.ofNat (97 + n))

/-- A string drawn from `uuid.uuid4().hex` consists of lowercase hex digits. -/
def IsLowerHex (s : String) : Prop :=
  ∀ c ∈ s.data, c ∈ lowerHexChars

instance decIsLowerHex (s : String) : Decidable (IsLowerHex s) :=
  List.decidableBAll _ s.data

/-! ## Helper lemmas -/

theorem roundHalfEven_intCast (n : ℤ) : roundHalfEven ((n : ℚ)) = n := by
  simp only [roundHalfEven, Int.floor_intCast, sub_self]
  norm_num

theorem fmtFixed_of_exact (q : ℚ) (prec : ℕ) (n : ℤ)
    (h : q * ((10 : ℚ) ^ prec) = (n : ℚ)) : fmtFixed q prec = fmtScaled n prec := by
  rw [fmtFixed, h, roundHalfEven_intCast]

theorem place_market_buy_dry_eq (cfg : TradingConfig) (gw : Gateway)
    (u cid ts : String) (amount : ℚ) (hdry : cfg.is_dry_run = true)
    (h0 : 0 < amount) (hmax : amount ≤ cfg.max_order_usd) (hmin : 1 ≤ amount) :
    place_market_buy cfg gw u cid ts amount
      = (BuyResult.simulated (simulate_market_buy cfg gw u ts amount).1,
         (simulate_market_buy cfg gw u ts amount).2) := by
  unfold place_market_buy
  rw [if_neg (not_le.mpr h0), if_neg (not_lt.mpr hmax), if_neg (not_lt.mpr hmin), if_pos hdry]

/-! ## Claim theorems -/

/-- C3: the amount guards are evaluated in order and fail fast with no
gateway calls: a non-positive amount is rejected as `InvalidAmount` with an
empty call trace, and a positive amount above `max_order_usd` is rejected as
`ExceedsConfiguredLimit` with an empty call trace. -/
theorem c3_amount_guards_fail_fast (cfg : TradingConfig) (gw : Gateway)
    (u cid ts : String) (amount : ℚ) :
    (amount ≤ 0 →
      place_market_buy cfg gw u cid ts amount = (BuyResult.invalidAmount, [])) ∧
    (0 < amount → cfg.max_order_usd < amount →
      place_market_buy cfg gw u cid ts amount = (BuyResult.exceedsConfiguredLimit, [])) := by
  constructor
  · intro h
    unfold place_market_buy
    rw [if_pos h]
  · intro h0 hmax
    unfold place_market_buy
    rw [if_neg (not_le.mpr h0), if_pos hmax]

theorem c3_amount_guards_fail_fast_witness :
    ((-5 : ℚ) ≤ 0 ∧
      place_market_buy ⟨"k", "s", "dry_run", 50, "BTC-USD"⟩ ⟨none, none, none, none⟩
        "ab" "cid" "ts" (-5) = (BuyResult.invalidAmount, [])) ∧
    ((0 : ℚ) < 100 ∧ (50 : ℚ) < 100 ∧
      place_market_buy ⟨"k", "s", "dry_run", 50, "BTC-USD"⟩ ⟨none, none, none, none⟩
        "ab" "cid" "ts" 100 = (BuyResult.exceedsConfiguredLimit, [])) := by
  refine ⟨⟨by norm_num, ?_⟩, by norm_num, by norm_num, ?_⟩
  · exact (c3_amount_guards_fail_fast _ _ _ _ _ _).1 (by norm_num)
  · exact (c3_amount_guards_fail_fast _ _ _ _ _ _).2 (by norm_num) (by norm_num)

/-- C6: a positive amount below the $1.00 exchange minimum that has passed
the earlier guards is rejected as `BelowExchangeMinimum` with no gateway
calls, and an amount of exactly $1.00 passes this guard (the outcome is never
`BelowExchangeMinimum`). -/
theorem c6_minimum_order_floor (cfg : TradingConfig) (gw : Gateway)
    (u cid ts : String) (amount : ℚ) :
    (0 < amount → amount < 1 → amount ≤ cfg.max_order_usd →
      place_market_buy cfg gw u cid ts amount = (BuyResult.belowExchangeMinimum, [])) ∧
    (1 ≤ cfg.max_order_usd →
      (place_market_buy cfg gw u cid ts 1).1 ≠ BuyResult.belowExchangeMinimum) := by
  constructor
  · intro h0 h1 hmax
    unfold place_market_buy
    rw [if_neg (not_le.mpr h0), if_neg (not_lt.mpr hmax), if_pos h1]
  · intro hmax
    unfold place_market_buy
    rw [if_neg (by norm_num : ¬ (1 : ℚ) ≤ 0), if_neg (not_lt.mpr hmax),
        if_neg (by norm_num : ¬ (1 : ℚ) < 1)]
    split
    · simp
    · unfold execute_market_buy
      by_cases hb : balanceBlocks (get_account_balance gw "USD").1 1 = true
      · rw [if_pos hb]
        simp
      · rw [if_neg hb]
        rcases hsub : gw.submitAck with _ | oid <;> simp [hsub]

theorem c6_minimum_order_floor_witness :
    ((0 : ℚ) < 1/2 ∧ (1/2 : ℚ) < 1 ∧ (1/2 : ℚ) ≤ 50 ∧
      place_market_buy ⟨"k", "s", "dry_run", 50, "BTC-USD"⟩ ⟨none, none, none, none⟩
        "ab" "cid" "ts" (1/2) = (BuyResult.belowExchangeMinimum, [])) ∧
    ((1 : ℚ) ≤ 50 ∧
      (place_market_buy ⟨"k", "s", "dry_run", 50, "BTC-USD"⟩ ⟨none, none, none, none⟩
        "ab" "cid" "ts" 1).1 ≠ BuyResult.belowExchangeMinimum) := by
  refine ⟨⟨by norm_num, by norm_num, by norm_num, ?_⟩, by norm_num, ?_⟩
  · exact (c6_minimum_order_floor ⟨"k", "s", "dry_run", 50, "BTC-USD"⟩ ⟨none, none, none, none⟩
      "ab" "cid" "ts" (1/2)).1 (by norm_num) (by norm_num) (by norm_num)
  · exact (c6_minimum_order_floor ⟨"k", "s", "dry_run", 50, "BTC-USD"⟩ ⟨none, none, none, none⟩
      "ab" "cid" "ts" 1).2 (by norm_num)

/-- C5: in dry-run mode every amount that passes the guards yields a
`Simulated` result after one price fetch — never an abort: a failed price
fetch is treated as price `0` (via `fetchedPriceOr0`), the estimated quantity
is `amount / price` when the price is positive and `0` otherwise, and the
order fields are rendered exactly as the source renders them. -/
theorem c5_dry_run_simulates (cfg : TradingConfig) (gw : Gateway)
    (u cid ts : String) (amount : ℚ) (hdry : cfg.is_dry_run = true)
    (h0 : 0 < amount) (hmax : amount ≤ cfg.max_order_usd) (hmin : 1 ≤ amount) :
    place_market_buy cfg gw u cid ts amount =
      (BuyResult.simulated
        { order_id := "DRY-RUN-" ++ pyUpper u
          product_id := cfg.trading_pair
          side := "BUY"
          order_type := "MARKET"
          status := "SIMULATED"
          quote_size := fmtFixed amount 2
          estimated_fill_price := fmtFixed (fetchedPriceOr0 gw) 2
          estimated_quantity :=
            fmtFixed (if 0 < fetchedPriceOr0 gw then amount / fetchedPriceOr0 gw else 0) 8
          timestamp := ts },
       [ApiCall.getProduct]) := by
  rw [place_market_buy_dry_eq cfg gw u cid ts amount hdry h0 hmax hmin]
  rfl

theorem c5_dry_run_simulates_witness :
    (TradingConfig.is_dry_run ⟨"k", "s", "dry_run", 50, "BTC-USD"⟩ = true ∧
      (0 : ℚ) < 10 ∧ (10 : ℚ) ≤ 50 ∧ (1 : ℚ) ≤ 10) ∧
    place_market_buy ⟨"k", "s", "dry_run", 50, "BTC-USD"⟩
        ⟨none, some 50000, none, none⟩ "ab12cd34" "cid" "ts" 10 =
      (BuyResult.simulated
        { order_id := "DRY-RUN-AB12CD34"
          product_id := "BTC-USD"
          side := "BUY"
          order_type := "MARKET"
          status := "SIMULATED"
          quote_size := "10.00"
          estimated_fill_price := "50000.00"
          estimated_quantity := "0.00020000"
          timestamp := "ts" },
       [ApiCall.getProduct]) := by
  refine ⟨⟨by decide, by norm_num, by norm_num, by norm_num⟩, ?_⟩
  rw [c5_dry_run_simulates _ _ _ _ _ _ (by decide) (by norm_num) (by norm_num) (by norm_num)]
  have hp : fetchedPriceOr0 (⟨none, some 50000, none, none⟩ : Gateway) = 50000 := rfl
  rw [hp, if_pos (by norm_num : (0 : ℚ) < 50000),
      fmtFixed_of_exact 10 2 1000 (by norm_num),
      fmtFixed_of_exact 50000 2 5000000 (by norm_num),
      fmtFixed_of_exact (10 / 50000) 8 20000 (by norm_num)]
  decide

/-- C4 (counterexample): with `trading_mode = "LIVE"` the source property
`is_dry_run` is `false` although the mode string differs from the exact
string `"live"` — so `is_dry_run` is not `trading_mode != "live"`. -/
theorem c4_counterexample :
    TradingConfig.is_dry_run ⟨"k", "s", "LIVE", 50, "BTC-USD"⟩ = false ∧
    spec_is_dry_run ⟨"k", "s", "LIVE", 50, "BTC-USD"⟩ = true := by
  decide

/-- C4 (amended): `is_dry_run` is true exactly when the lower-cased
`trading_mode` differs from `"live"` — the comparison is case-insensitive. -/
theorem c4_is_dry_run_case_insensitive (cfg : TradingConfig) :
    cfg.is_dry_run = true ↔ pyLower cfg.trading_mode ≠ "live" := by
  simp [TradingConfig.is_dry_run, bne_iff_ne]

/-- C7: whenever the lower-cased `trading_mode` is not `"live"` (including
misspelled or unrecognized modes), `place_market_buy` never invokes the live
order-submission endpoint: `marketOrderBuy` is absent from its call trace. -/
theorem c7_nonlive_mode_never_submits (cfg : TradingConfig) (gw : Gateway)
    (u cid ts : String) (amount : ℚ) (h : pyLower cfg.trading_mode ≠ "live") :
    ApiCall.marketOrderBuy ∉ (place_market_buy cfg gw u cid ts amount).2 := by
  have hdry : cfg.is_dry_run = true := by
    simp [TradingConfig.is_dry_run, bne_iff_ne, h]
  unfold place_market_buy
  by_cases h1 : amount ≤ 0
  · rw [if_pos h1]
    simp
  · rw [if_neg h1]
    by_cases h2 : cfg.max_order_usd < amount
    · rw [if_pos h2]
      simp
    · rw [if_neg h2]
      by_cases h3 : amount < 1
      · rw [if_pos h3]
        simp
      · rw [if_neg h3, if_pos hdry]
        simp [simulate_market_buy, get_current_price]

theorem c7_nonlive_mode_never_submits_witness :
    pyLower "LIVE_TRADING" ≠ "live" ∧
    ApiCall.marketOrderBuy ∉
      (place_market_buy ⟨"k", "s", "LIVE_TRADING", 50, "BTC-USD"⟩
        ⟨some [⟨"USD", 100⟩], some 50000, none, some "oid"⟩ "ab" "cid" "ts" 10).2 := by
  refine ⟨by decide, ?_⟩
  exact c7_nonlive_mode_never_submits ⟨"k", "s", "LIVE_TRADING", 50, "BTC-USD"⟩
    ⟨some [⟨"USD", 100⟩], some 50000, none, some "oid"⟩ "ab" "cid" "ts" 10 (by decide)

/-- C2: in live mode, for an amount that passes the three guards, a
retrievable USD balance below the amount makes the pipeline reject as
`InsufficientBalance` after the balance read only — the submission endpoint
is never called. -/
theorem c2_insufficient_balance_blocks (cfg : TradingConfig) (gw : Gateway)
    (u cid ts : String) (amount b : ℚ) (hlive : cfg.is_dry_run = false)
    (hmin : 1 ≤ amount) (hmax : amount ≤ cfg.max_order_usd)
    (hbal : (get_account_balance gw "USD").1 = some b) (hlt : b < amount) :
    place_market_buy cfg gw u cid ts amount
        = (BuyResult.insufficientBalance, [ApiCall.getAccounts]) ∧
    ApiCall.marketOrderBuy ∉ (place_market_buy cfg gw u cid ts amount).2 := by
  have h0 : ¬ amount ≤ 0 := not_le.mpr (lt_of_lt_of_le one_pos hmin)
  have hnd : ¬ cfg.is_dry_run = true := by simp [hlive]
  have hb : balanceBlocks (get_account_balance gw "USD").1 amount = true := by
    rw [hbal]
    simp [balanceBlocks, hlt]
  have key : place_market_buy cfg gw u cid ts amount
      = (BuyResult.insufficientBalance, [ApiCall.getAccounts]) := by
    unfold place_market_buy
    rw [if_neg h0, if_neg (not_lt.mpr hmax), if_neg (not_lt.mpr hmin), if_neg hnd]
    unfold execute_market_buy
    rw [if_pos hb]
    rfl
  refine ⟨key, ?_⟩
  rw [key]
  decide

theorem c2_insufficient_balance_blocks_witness :
    (TradingConfig.is_dry_run ⟨"k", "s", "live", 50, "BTC-USD"⟩ = false ∧
      (1 : ℚ) ≤ 10 ∧ (10 : ℚ) ≤ 50 ∧
      (get_account_balance ⟨some [⟨"USD", 5⟩], some 50000, none, some "oid"⟩ "USD").1 = some 5 ∧
      (5 : ℚ) < 10) ∧
    place_market_buy ⟨"k", "s", "live", 50, "BTC-USD"⟩
        ⟨some [⟨"USD", 5⟩], some 50000, none, some "oid"⟩ "ab" "cid" "ts" 10
      = (BuyResult.insufficientBalance, [ApiCall.getAccounts]) := by
  refine ⟨⟨by decide, by norm_num, by norm_num, by decide, by decide⟩, ?_⟩
  exact (c2_insufficient_balance_blocks ⟨"k", "s", "live", 50, "BTC-USD"⟩
    ⟨some [⟨"USD", 5⟩], some 50000, none, some "oid"⟩ "ab" "cid" "ts" 10 5
    (by decide) (by norm_num) (by norm_num) (by decide) (by decide)).1

/-- C1 (counterexample): in live mode, when the USD balance read fails (the
gateway yields no balance), `place_market_buy` for an in-limits amount does
call the submission endpoint — contradicting the claim that the pipeline
blocks without attempting submission. -/
theorem c1_counterexample :
    ApiCall.marketOrderBuy ∈
      (place_market_buy ⟨"k", "s", "live", 50, "BTC-USD"⟩
        ⟨none, some 50000, none, some "oid"⟩ "ab" "cid" "ts" 10).2 := by
  decide

/-- C1 (amended): in live mode, when the USD balance read returns the absence
signal, the pipeline does not block: for every amount passing the guards it
proceeds to call the submission endpoint after the balance read, and reports
neither a data-unavailability outcome nor an insufficient-balance one. -/
theorem c1_missing_balance_proceeds (cfg : TradingConfig) (gw : Gateway)
    (u cid ts : String) (amount : ℚ) (hlive : cfg.is_dry_run = false)
    (hmin : 1 ≤ amount) (hmax : amount ≤ cfg.max_order_usd)
    (hbal : (get_account_balance gw "USD").1 = none) :
    (place_market_buy cfg gw u cid ts amount).2
        = [ApiCall.getAccounts, ApiCall.marketOrderBuy] ∧
    (place_market_buy cfg gw u cid ts amount).1 ≠ BuyResult.dataUnavailable ∧
    (place_market_buy cfg gw u cid ts amount).1 ≠ BuyResult.insufficientBalance := by
  have h0 : ¬ amount ≤ 0 := not_le.mpr (lt_of_lt_of_le one_pos hmin)
  have hnd : ¬ cfg.is_dry_run = true := by simp [hlive]
  have hb : ¬ balanceBlocks (get_account_balance gw "USD").1 amount = true := by
    rw [hbal]
    simp [balanceBlocks]
  have key : place_market_buy cfg gw u cid ts amount
      = ((match gw.submitAck with
          | some exchange_order_id =>
              BuyResult.placed
                { order_id := exchange_order_id
                  client_order_id := cid
                  product_id := cfg.trading_pair
                  side := "BUY"
                  order_type := "MARKET"
                  quote_size := amount
                  status := "PLACED"
                  timestamp := ts }
          | none => BuyResult.submissionFailed),
         [ApiCall.getAccounts, ApiCall.marketOrderBuy]) := by
    unfold place_market_buy
    rw [if_neg h0, if_neg (not_lt.mpr hmax), if_neg (not_lt.mpr hmin), if_neg hnd]
    unfold execute_market_buy
    rw [if_neg hb]
    rfl
  refine ⟨by rw [key], ?_, ?_⟩ <;>
    rw [key] <;> rcases gw.submitAck with _ | oid <;> simp

theorem c1_missing_balance_proceeds_witness :
    (TradingConfig.is_dry_run ⟨"k", "s", "live", 50, "BTC-USD"⟩ = false ∧
      (1 : ℚ) ≤ 10 ∧ (10 : ℚ) ≤ 50 ∧
      (get_account_balance ⟨none, some 50000, none, some "oid"⟩ "USD").1 = none) ∧
    (place_market_buy ⟨"k", "s", "live", 50, "BTC-USD"⟩
        ⟨none, some 50000, none, some "oid"⟩ "ab" "cid" "ts" 10).2
      = [ApiCall.getAccounts, ApiCall.marketOrderBuy] := by
  refine ⟨⟨by decide, by norm_num, by norm_num, by decide⟩, ?_⟩
  exact (c1_missing_balance_proceeds ⟨"k", "s", "live", 50, "BTC-USD"⟩
    ⟨none, some 50000, none, some "oid"⟩ "ab" "cid" "ts" 10
    (by decide) (by norm_num) (by norm_num) (by decide)).1

/-- Case-raising is injective on the lowercase-hex alphabet. -/
theorem toUpper_inj_on_hex : ∀ c1 ∈ lowerHexChars, ∀ c2 ∈ lowerHexChars,
    Char.toUpper c1 = Char.toUpper c2 → c1 = c2 := by
  decide

theorem map_toUpper_inj_on_hex : ∀ l1 l2 : List Char,
    (∀ c ∈ l1, c ∈ lowerHexChars) → (∀ c ∈ l2, c ∈ lowerHexChars) →
    l1.map Char.toUpper = l2.map Char.toUpper → l1 = l2 := by
  intro l1
  induction l1 with
  | nil =>
    intro l2 _ _ h
    cases l2 with
    | nil => rfl
    | cons b t2 => simp at h
  | cons a t ih =>
    intro l2 h1 h2 h
    cases l2 with
    | nil => simp at h
    | cons b t2 =>
      simp only [List.map_cons, List.cons.injEq] at h
      have hab : a = b :=
        toUpper_inj_on_hex a (h1 a (by simp)) b (h2 b (by simp)) h.1
      have ht : t = t2 :=
        ih t2 (fun c hc => h1 c (by simp [hc])) (fun c hc => h2 c (by simp [hc])) h.2
      rw [hab, ht]

theorem pyUpper_inj_on_hex {s1 s2 : String} (h1 : IsLowerHex s1) (h2 : IsLowerHex s2)
    (h : pyUpper s1 = pyUpper s2) : s1 = s2 := by
  rcases s1 with ⟨d1⟩
  rcases s2 with ⟨d2⟩
  exact String.ext (map_toUpper_inj_on_hex d1 d2 h1 h2 (congrArg String.data h))

theorem string_append_left_cancel {s t1 t2 : String} (h : s ++ t1 = s ++ t2) : t1 = t2 := by
  rcases s with ⟨d⟩
  rcases t1 with ⟨d1⟩
  rcases t2 with ⟨d2⟩
  have hd : d ++ d1 = d ++ d2 := congrArg String.data h
  exact String.ext (List.append_cancel_left hd)

/-- C8: two dry-run simulations with the same amount, configuration and
fetched market price produce identical `estimated_quantity` and
`estimated_fill_price` strings, and — whenever the two drawn uuid hex tokens
differ — distinct `order_id` values. -/
theorem c8_simulation_deterministic_fresh_id (cfg : TradingConfig) (gw : Gateway)
    (u1 u2 cid1 cid2 ts : String) (amount : ℚ) (hdry : cfg.is_dry_run = true)
    (h0 : 0 < amount) (hmax : amount ≤ cfg.max_order_usd) (hmin : 1 ≤ amount)
    (hx1 : IsLowerHex u1) (hx2 : IsLowerHex u2) (hne : u1 ≠ u2) :
    ∃ o1 o2 : SimulatedOrder,
      (place_market_buy cfg gw u1 cid1 ts amount).1 = BuyResult.simulated o1 ∧
      (place_market_buy cfg gw u2 cid2 ts amount).1 = BuyResult.simulated o2 ∧
      o1.estimated_quantity = o2.estimated_quantity ∧
      o1.estimated_fill_price = o2.estimated_fill_price ∧
      o1.order_id ≠ o2.order_id := by
  refine ⟨(simulate_market_buy cfg gw u1 ts amount).1,
          (simulate_market_buy cfg gw u2 ts amount).1, ?_, ?_, rfl, rfl, ?_⟩
  · rw [place_market_buy_dry_eq cfg gw u1 cid1 ts amount hdry h0 hmax hmin]
  · rw [place_market_buy_dry_eq cfg gw u2 cid2 ts amount hdry h0 hmax hmin]
  · show "DRY-RUN-" ++ pyUpper u1 ≠ "DRY-RUN-" ++ pyUpper u2
    intro hcon
    exact hne (pyUpper_inj_on_hex hx1 hx2 (string_append_left_cancel hcon))

theorem c8_simulation_deterministic_fresh_id_witness :
    (TradingConfig.is_dry_run ⟨"k", "s", "dry_run", 50, "BTC-USD"⟩ = true ∧
      (0 : ℚ) < 10 ∧ (10 : ℚ) ≤ 50 ∧ (1 : ℚ) ≤ 10 ∧
      IsLowerHex "ab12cd34" ∧ IsLowerHex "ab12cd35" ∧ "ab12cd34" ≠ "ab12cd35") ∧
    (∃ o1 o2 : SimulatedOrder,
      (place_market_buy ⟨"k", "s", "dry_run", 50, "BTC-USD"⟩
        ⟨none, some 50000, none, none⟩ "ab12cd34" "cid1" "ts" 10).1 = BuyResult.simulated o1 ∧
      (place_market_buy ⟨"k", "s", "dry_run", 50, "BTC-USD"⟩
        ⟨none, some 50000, none, none⟩ "ab12cd35" "cid2" "ts" 10).1 = BuyResult.simulated o2 ∧
      o1.estimated_quantity = o2.estimated_quantity ∧
      o1.estimated_fill_price = o2.estimated_fill_price ∧
      o1.order_id ≠ o2.order_id) := by
  refine ⟨⟨by decide, by norm_num, by norm_num, by norm_num, by decide, by decide, by decide⟩, ?_⟩
  exact c8_simulation_deterministic_fresh_id ⟨"k", "s", "dry_run", 50, "BTC-USD"⟩
    ⟨none, some 50000, none, none⟩ "ab12cd34" "ab12cd35" "cid1" "cid2" "ts" 10
    (by decide) (by norm_num) (by norm_num) (by norm_num) (by decide) (by decide) (by decide)

/-- C9: `run_diagnostics` always performs all four checks — the call trace is
exactly accounts, product, product book, accounts again — and its result is
true if and only if the credential, price and order-book checks succeed; the
balance fetch never influences the result. -/
theorem c9_diagnostics_aggregate (gw : Gateway) :
    (run_diagnostics gw).1 = (gw.accounts.isSome && gw.price.isSome && gw.book.isSome) ∧
    (run_diagnostics gw).2 =
      [ApiCall.getAccounts, ApiCall.getProduct, ApiCall.getProductBook, ApiCall.getAccounts] := by
  refine ⟨?_, rfl⟩
  rcases gw with ⟨acc, pr, bk, sub⟩
  rcases acc with _ | a <;> rcases pr with _ | p <;> rcases bk with _ | b <;> rfl


/-- C10 (counterexample): the summary output can contain the full API secret
as a substring — here the secret coincides with the (printed) trading pair —
so "never contains the full secret" fails as a universal claim. -/
theorem c10_counterexample :
    strContains
      (print_config_summary ⟨"key", "BTC-USD", "dry_run", 50, "BTC-USD"⟩)
      (TradingConfig.api_secret ⟨"key", "BTC-USD", "dry_run", 50, "BTC-USD"⟩) = true := by
  have hf : fmtFixed ((⟨"key", "BTC-USD", "dry_run", 50, "BTC-USD"⟩ :
        TradingConfig).max_order_usd) 2 = fmtScaled 5000 2 :=
    fmtFixed_of_exact _ _ _ (by show (50 : ℚ) * (10 : ℚ) ^ 2 = ((5000 : ℤ) : ℚ); norm_num)
  unfold print_config_summary
  rw [hf]
  decide

/-- C10 (amended): the summary never incorporates the API secret — its output
is unchanged under any change of `api_secret` — and it renders the API key
only through the mask: the output is unchanged under any change of the key
that preserves the mask, and the mask is the first 4 and last 4 characters
when the key is longer than 8 characters, else a fixed `"****"`. -/
theorem c10_summary_masks_credentials (cfg : TradingConfig) (s2 k2 : String) :
    print_config_summary { cfg with api_secret := s2 } = print_config_summary cfg ∧
    (masked_key { cfg with api_key := k2 } = masked_key cfg →
      print_config_summary { cfg with api_key := k2 } = print_config_summary cfg) ∧
    (8 < cfg.api_key.data.length →
      masked_key cfg
        = String.mk (cfg.api_key.data.take 4) ++ "..." ++ strTakeRight cfg.api_key 4) ∧
    (cfg.api_key.data.length ≤ 8 → masked_key cfg = "****") := by
  refine ⟨rfl, ?_, ?_, ?_⟩
  · intro h
    unfold print_config_summary
    rw [h]
    rfl
  · intro h
    unfold masked_key
    rw [if_pos h]
  · intro h
    unfold masked_key
    rw [if_neg (not_lt.mpr h)]

theorem c10_summary_masks_credentials_witness :
    (masked_key ⟨"abcdXYZhijkl", "sec", "dry_run", 50, "BTC-USD"⟩
        = masked_key ⟨"abcdefghijkl", "sec", "dry_run", 50, "BTC-USD"⟩ ∧
      8 < ("abcdefghijkl".data.length) ∧ ("abcdefgh".data.length) ≤ 8) ∧
    print_config_summary ⟨"abcdefghijkl", "other", "dry_run", 50, "BTC-USD"⟩
        = print_config_summary ⟨"abcdefghijkl", "sec", "dry_run", 50, "BTC-USD"⟩ ∧
    print_config_summary ⟨"abcdXYZhijkl", "sec", "dry_run", 50, "BTC-USD"⟩
        = print_config_summary ⟨"abcdefghijkl", "sec", "dry_run", 50, "BTC-USD"⟩ ∧
    masked_key ⟨"abcdefghijkl", "sec", "dry_run", 50, "BTC-USD"⟩ = "abcd...ijkl" ∧
    masked_key ⟨"abcdefgh", "sec", "dry_run", 50, "BTC-USD"⟩ = "****" := by
  refine ⟨⟨by decide, by decide, by decide⟩, ?_, ?_, ?_, ?_⟩
  · exact (c10_summary_masks_credentials
      ⟨"abcdefghijkl", "sec", "dry_run", 50, "BTC-USD"⟩ "other" "abcdXYZhijkl").1
  · exact (c10_summary_masks_credentials
      ⟨"abcdefghijkl", "sec", "dry_run", 50, "BTC-USD"⟩ "other" "abcdXYZhijkl").2.1 (by decide)
  · exact Eq.trans ((c10_summary_masks_credentials
      ⟨"abcdefghijkl", "sec", "dry_run", 50, "BTC-USD"⟩ "other" "abcdXYZhijkl").2.2.1
        (by decide)) (by decide)
  · exact (c10_summary_masks_credentials
      ⟨"abcdefgh", "sec", "dry_run", 50, "BTC-USD"⟩ "other" "abcdXYZhijkl").2.2.2 (by decide)


end CoinbaseBot
